import Mathlib

/-!
Verification of the contract-compass financial-analysis logic.

The development shallowly embeds the analysis data-loading step of
`src/routes/analysis/+page.server.ts` (the rolling-12-months loader present in
the repository) and, for the interval-scoped loader that the repository's
analysis page consumes (`totalSpendInRange`, `totalActiveContractValue`,
`displayInterval`, URL `start`/`end` parameters) but whose server source is not
included, a model built from the specification's words.

Dates are modelled as calendar fields with a minute-of-day component; the
embedding assumes the server's local timezone is UTC, so a date-only string
parses to the same calendar date with or without a `T00:00:00` suffix.
Monetary amounts are modelled as rationals.
-/

namespace ContractCompass

/-- Calendar date as stored in the contract table (`YYYY-MM-DD` strings). -/
structure CalDate where
  year : Nat
  month : Nat
  day : Nat
deriving DecidableEq, Repr

/-- An instant: a calendar date together with a minute-of-day component.
`minute = 0` is local midnight, which is what `new Date(s + 'T00:00:00')`
produces for a stored date string `s`. -/
structure DateTime where
  year : Nat
  month : Nat
  day : Nat
  minute : Nat
deriving DecidableEq, Repr

/-- Linearization of an instant used to compare instants chronologically.
For in-range fields (month 1-12, day 1-31, minute below 1441) it agrees with
lexicographic calendar order, which is how JavaScript `Date` comparisons
behave. -/
def DateTime.key (d : DateTime) : Nat :=
  ((d.year * 13 + d.month) * 32 + d.day) * 1441 + d.minute

instance : LE DateTime := ⟨fun a b => a.key ≤ b.key⟩

instance : LT DateTime := ⟨fun a b => a.key < b.key⟩

instance (a b : DateTime) : Decidable (a ≤ b) :=
  inferInstanceAs (Decidable (a.key ≤ b.key))

instance (a b : DateTime) : Decidable (a < b) :=
  inferInstanceAs (Decidable (a.key < b.key))

/-- Chronological maximum of two instants. -/
def dtMax (a b : DateTime) : DateTime := if a.key < b.key then b else a

/-- Chronological minimum of two instants. -/
def dtMin (a b : DateTime) : DateTime := if b.key < a.key then b else a

/-- Local midnight of a calendar date: `new Date(s + 'T00:00:00')`. -/
def CalDate.atMidnight (d : CalDate) : DateTime :=
  ⟨d.year, d.month, d.day, 0⟩

/-- Calendar order on stored dates (compared at local midnight). -/
instance : LE CalDate := ⟨fun a b => a.atMidnight ≤ b.atMidnight⟩

instance (a b : CalDate) : Decidable (a ≤ b) :=
  inferInstanceAs (Decidable (a.atMidnight ≤ b.atMidnight))

/-- Zero-based month index of an instant, counting calendar months from year 0.
`differenceInCalendarMonths` is the difference of these indices. -/
def monthIdx (d : DateTime) : Nat := d.year * 12 + (d.month - 1)

/-- `differenceInCalendarMonths(a, b)` from date-fns: whole calendar months
from `b` to `a`, ignoring the day and time components. -/
def calMonthDiff (a b : DateTime) : Int :=
  (monthIdx a : Int) - (monthIdx b : Int)

/-- Gregorian leap-year rule. -/
def isLeapYear (y : Nat) : Bool :=
  (y % 4 == 0 && y % 100 != 0) || (y % 400 == 0)

/-- Number of days in a calendar month. -/
def daysInMonth (y m : Nat) : Nat :=
  if m = 2 then (if isLeapYear y then 29 else 28)
  else if m = 4 ∨ m = 6 ∨ m = 9 ∨ m = 11 then 30
  else 31

/-- `subMonths(d, n)` from date-fns: step back `n` calendar months, clamping
the day-of-month to the target month's length. -/
def subMonths (d : DateTime) (n : Nat) : DateTime :=
  let mi := d.year * 12 + (d.month - 1) - n
  let y := mi / 12
  let m := mi % 12 + 1
  ⟨y, m, min d.day (daysInMonth y m), d.minute⟩

/-- First instant of the month containing `d`: `startOfMonth` from date-fns. -/
def startOfMonth (d : DateTime) : DateTime := ⟨d.year, d.month, 1, 0⟩

/-- The far-future sentinel used for open-ended contracts:
`new Date('2999-12-31')`. -/
def farFuture : DateTime := ⟨2999, 12, 31, 0⟩

/-- A half-open-input, closed-semantics analysis interval `[start, stop]`.
The source calls the upper bound `end`, which is a reserved word here. -/
structure Interval where
  start : DateTime
  stop : DateTime
deriving DecidableEq, Repr

/-- `isWithinInterval(d, {start, end})` from date-fns: inclusive on both
bounds. -/
def isWithinInterval (d : DateTime) (iv : Interval) : Bool :=
  decide (iv.start ≤ d) && decide (d ≤ iv.stop)

/-- Payment cadence of a contract (`payment_terms` column). -/
inductive PaymentTerms where
  | one_time
  | monthly
  | yearly
deriving DecidableEq, Repr

/-- The fields of a contract row that the analysis computation reads.
`Option` models SQL `NULL`. -/
structure Contract where
  vendor_name : Option String
  contract_type : Option String
  start_date : Option CalDate
  end_date : Option CalDate
  payment_terms : Option PaymentTerms
  contract_value : Option ℚ
deriving DecidableEq, Repr

/-- Contract value with an absent value read as 0 (`contract_value || 0`). -/
def valueOf (c : Contract) : ℚ := c.contract_value.getD 0

/-- JavaScript truthiness of `contract.contract_value`: `null` and `0` are
falsy, every other number is truthy. -/
def valueTruthy (c : Contract) : Bool :=
  match c.contract_value with
  | some v => decide (v ≠ 0)
  | none => false

/-- JavaScript `s || default` for an optional string: `null` and the empty
string fall back to the default. -/
def strOr (o : Option String) (d : String) : String :=
  match o with
  | some s => if s = "" then d else s
  | none => d

/-- `contract.vendor_name || 'Unknown Vendor'`. -/
def vendorNameOf (c : Contract) : String := strOr c.vendor_name "Unknown Vendor"

/-- `contract.contract_type || 'Uncategorized'`. -/
def typeNameOf (c : Contract) : String := strOr c.contract_type "Uncategorized"

/-!
Embedding of the analysis loader present in the repository
(`src/routes/analysis/+page.server.ts`, the rolling-12-months variant).
`now` stands for `new Date()` taken at the top of the load function.
-/

/-- The currently-active filter of the loader (its lines 49-52):
a contract is kept when it has no `end_date`, or when
`new Date(end_date + 'T00:00:00')` is not in the past. No other field is
consulted. -/
def isActive (now : DateTime) (c : Contract) : Bool :=
  match c.end_date with
  | none => true
  | some e => !(decide (e.atMidnight < now))

/-- `activeContracts` of the loader: the currently-active sublist. -/
def activeContracts (contracts : List Contract) (now : DateTime) : List Contract :=
  contracts.filter (isActive now)

/-- `monthlyRecurringCost` of the loader: active contracts with
`payment_terms === 'monthly'` and a truthy value, summed by `reduce`. -/
def monthlyRecurringCost (contracts : List Contract) (now : DateTime) : ℚ :=
  ((activeContracts contracts now).filter
    (fun c => decide (c.payment_terms = some PaymentTerms.monthly) && valueTruthy c)).foldl
    (fun sum c => sum + valueOf c) 0

/-- `totalAnnualizedSpend` of the loader: active monthly contracts contribute
`value * 12`, active yearly ones `value`, others nothing. -/
def totalAnnualizedSpend (contracts : List Contract) (now : DateTime) : ℚ :=
  ((activeContracts contracts now).filter
    (fun c => decide (c.payment_terms = some PaymentTerms.monthly) ||
      decide (c.payment_terms = some PaymentTerms.yearly))).foldl
    (fun sum c =>
      if c.payment_terms = some PaymentTerms.monthly ∧ valueTruthy c then
        sum + valueOf c * 12
      else if c.payment_terms = some PaymentTerms.yearly ∧ valueTruthy c then
        sum + valueOf c
      else sum) 0

/-- The loader's date-range interval: `{ start: subMonths(now, 12), end: now }`. -/
def srcInterval (now : DateTime) : Interval := ⟨subMonths now 12, now⟩

/-- Per-contract spend of the loader's vendor/type loop (its lines 101-127).
For `one_time`, the value counts when the start date lies within the interval.
Otherwise `new Date(start_date + 'T00:00:00')` is built — an Invalid Date when
`start_date` is null, and every comparison against an Invalid Date is false,
so the overlap start falls back to `interval.start`. The overlap end clamps
the effective end date to `interval.end`, and a strict `<` guards the month
count `differenceInCalendarMonths + 1`. -/
def srcSpendOf (iv : Interval) (c : Contract) : ℚ :=
  if c.payment_terms = some PaymentTerms.one_time then
    match c.start_date with
    | some s => if isWithinInterval s.atMidnight iv then valueOf c else 0
    | none => 0
  else
    let contractEndDate : DateTime :=
      match c.end_date with
      | some e => e.atMidnight
      | none => farFuture
    let overlapStartDate : DateTime :=
      match c.start_date with
      | some s => if iv.start < s.atMidnight then s.atMidnight else iv.start
      | none => iv.start
    let overlapEndDate : DateTime :=
      if contractEndDate < iv.stop then contractEndDate else iv.stop
    if overlapStartDate < overlapEndDate then
      let monthlyCost : ℚ :=
        if c.payment_terms = some PaymentTerms.monthly then valueOf c
        else valueOf c / 12
      let monthsInInterval : Int := calMonthDiff overlapEndDate overlapStartDate
      let monthsInclusive : Int :=
        if 0 ≤ monthsInInterval then monthsInInterval + 1 else monthsInInterval
      monthlyCost * (max 0 monthsInclusive : Int)
    else 0

/-- `Map.set`-style accumulation into an insertion-ordered association list:
an existing key is updated in place, a new key is appended. -/
def bump : List (String × ℚ) → String → ℚ → List (String × ℚ)
  | [], k, v => [(k, v)]
  | (k', t) :: rest, k, v =>
    if k' = k then (k', t + v) :: rest else (k', t) :: bump rest k v

/-- The loader's `vendorSpend` map: contracts with a truthy value and positive
computed spend accumulate under `vendor_name || 'Unknown Vendor'`. -/
def vendorSpend (contracts : List Contract) (iv : Interval) : List (String × ℚ) :=
  contracts.foldl
    (fun m c =>
      if valueTruthy c then
        let spend := srcSpendOf iv c
        if 0 < spend then bump m (vendorNameOf c) spend else m
      else m) []

/-- The loader's `typeSpend` map, keyed by `contract_type || 'Uncategorized'`. -/
def typeSpend (contracts : List Contract) (iv : Interval) : List (String × ℚ) :=
  contracts.foldl
    (fun m c =>
      if valueTruthy c then
        let spend := srcSpendOf iv c
        if 0 < spend then bump m (typeNameOf c) spend else m
      else m) []

/-- Recover the first-of-month instant from a zero-based month index; this is
`new Date(monthKey + '-01T00:00:00')` for the bucket key `monthKey`. -/
def monthFirst (k : Nat) : DateTime := ⟨k / 12, k % 12 + 1, 1, 0⟩

/-- The loader's 12 initialized trend buckets, oldest first: for
`i = 11 .. 0` a bucket keyed by the month of `subMonths(now, i)`, value 0.
Bucket keys are `'yyyy-MM'` strings in the source; the formatting is injective
on the month, so buckets are keyed here by the month index. -/
def srcTrendInit (now : DateTime) : List (Nat × ℚ) :=
  (List.range 12).map (fun j => (monthIdx (subMonths now (11 - j)), 0))

/-- One contract's pass of the loader's trend loop (its lines 153-174):
skipped without a truthy value or a `start_date`; a `one_time` contract adds
its full value to the single bucket of its start month when present; any other
cadence adds the monthly cost (`value` for monthly, `value / 12` otherwise) to
every bucket whose first-of-month lies in
`[startOfMonth(start_date), end_date-or-sentinel]`. -/
def srcTrendStep (buckets : List (Nat × ℚ)) (c : Contract) : List (Nat × ℚ) :=
  if valueTruthy c then
    match c.start_date with
    | none => buckets
    | some sd =>
      if c.payment_terms = some PaymentTerms.one_time then
        let key := monthIdx sd.atMidnight
        buckets.map (fun p => if p.1 = key then (p.1, p.2 + valueOf c) else p)
      else
        let monthlyCost : ℚ :=
          if c.payment_terms = some PaymentTerms.monthly then valueOf c
          else valueOf c / 12
        let endDate : DateTime :=
          match c.end_date with
          | some e => e.atMidnight
          | none => farFuture
        buckets.map (fun p =>
          if isWithinInterval (monthFirst p.1) ⟨startOfMonth sd.atMidnight, endDate⟩ then
            (p.1, p.2 + monthlyCost)
          else p)
  else buckets

/-- The loader's filled trend buckets. -/
def srcTrend (contracts : List Contract) (now : DateTime) : List (Nat × ℚ) :=
  contracts.foldl srcTrendStep (srcTrendInit now)

/-- Field names of the object returned by the loader's error branch
(its lines 32-41). -/
def analysisErrorShapeFields : List String :=
  ["monthlyRecurringCost", "totalAnnualizedSpend", "oneTimeContractsCountYTD",
   "oneTimeContractsValueYTD", "spendByType", "spendTrend", "allTypes",
   "top5Contracts"]

/-- Field names of the object returned by the loader's success path
(its lines 184-193). -/
def analysisSuccessShapeFields : List String :=
  ["monthlyRecurringCost", "totalAnnualizedSpend", "oneTimeContractsValueYTD",
   "spendByVendor", "spendByType", "spendTrend", "allTypes", "top5Contracts"]

/-!
Model of the interval-scoped analysis loader. The repository's analysis page
consumes this loader's output (`totalSpendInRange`, `totalActiveContractValue`,
`displayInterval`, URL `start`/`end` parameters), but the loader's own source
file is not included in the repository snapshot, so it is modelled from the
specification (sections 4.1-4.5).
-/

/-- Modelled from the spec: the Interval Resolver of the missing
interval-scoped loader (spec section 4.1). `end` defaults to the current
instant when absent; `start` defaults to the first calendar day of the current
year; supplied parameters parse to local midnight. -/
def resolveInterval (startParam endParam : Option CalDate) (now : DateTime) :
    Interval :=
  { start :=
      match startParam with
      | some s => s.atMidnight
      | none => ⟨now.year, 1, 1, 0⟩
    stop :=
      match endParam with
      | some e => e.atMidnight
      | none => now }

/-- Modelled from the spec: the is-currently-active predicate of the missing
interval-scoped loader (spec section 4.2): `start_date` present,
`start_date <= today`, and `end_date` absent or `end_date >= today`. -/
def isCurrentlyActive (c : Contract) (today : CalDate) : Bool :=
  match c.start_date with
  | none => false
  | some s =>
    decide (s ≤ today) &&
      (match c.end_date with
       | none => true
       | some e => decide (today ≤ e))

/-- The effective end date of a contract: `end_date` when present, else the
far-future sentinel (spec section 4.2). -/
def effectiveEndDate (c : Contract) : DateTime :=
  match c.end_date with
  | some e => e.atMidnight
  | none => farFuture

/-- Modelled from the spec: interval overlap of the missing interval-scoped
loader (spec section 4.2): `start_date` present, `start_date <= interval.end`
and `effective_end_date >= interval.start`. -/
def overlapsInterval (c : Contract) (iv : Interval) : Bool :=
  match c.start_date with
  | none => false
  | some s => decide (s.atMidnight ≤ iv.stop) && decide (iv.start ≤ effectiveEndDate c)

/-- Round a rational amount to 2 decimal places with round-half-up on the
cent (spec section 4.3). -/
def roundCents (q : ℚ) : ℚ := (Int.floor (q * 100 + 1 / 2) : ℚ) / 100

/-- Modelled from the spec: the Spend Allocator of the missing interval-scoped
loader (spec section 4.3). One-time and yearly contracts are lump sums
recognized when the start date lies within the interval; monthly contracts are
prorated by the inclusive calendar-month count of the overlap span, the result
rounded to the cent. Contracts without a start date allocate nothing. -/
def allocatedSpend (c : Contract) (iv : Interval) : ℚ :=
  match c.start_date with
  | none => 0
  | some s =>
    match c.payment_terms with
    | some PaymentTerms.monthly =>
      let overlapStart := dtMax s.atMidnight iv.start
      let overlapStop := dtMin (effectiveEndDate c) iv.stop
      if overlapStart < overlapStop then
        roundCents (valueOf c * ((calMonthDiff overlapStop overlapStart : ℚ) + 1))
      else 0
    | some PaymentTerms.one_time =>
      if isWithinInterval s.atMidnight iv then valueOf c else 0
    | some PaymentTerms.yearly =>
      if isWithinInterval s.atMidnight iv then valueOf c else 0
    | none => 0

/-- Modelled from the spec: `totalSpendInRange` of the missing interval-scoped
loader (spec section 4.5) — the allocated spend summed over the contract
collection (non-overlapping contracts allocate zero). -/
def totalSpendInRange (contracts : List Contract) (iv : Interval) : ℚ :=
  contracts.foldl (fun sum c => sum + allocatedSpend c iv) 0

/-- Modelled from the spec: the per-vendor totals of the missing
interval-scoped loader (spec section 4.4) — every contract with positive
allocated spend accumulates under `vendor_name || 'Unknown Vendor'`. -/
def spendByVendorSpec (contracts : List Contract) (iv : Interval) :
    List (String × ℚ) :=
  contracts.foldl
    (fun m c =>
      let spend := allocatedSpend c iv
      if 0 < spend then bump m (vendorNameOf c) spend else m) []

/-- Modelled from the spec: the per-type totals of the missing interval-scoped
loader (spec section 4.4), keyed by `contract_type || 'Uncategorized'`. -/
def spendByTypeSpec (contracts : List Contract) (iv : Interval) :
    List (String × ℚ) :=
  contracts.foldl
    (fun m c =>
      let spend := allocatedSpend c iv
      if 0 < spend then bump m (typeNameOf c) spend else m) []

/-- English three-letter month abbreviation, as `format(date, 'MMM')`. -/
def monthAbbrev (m : Nat) : String :=
  match m with
  | 1 => "Jan" | 2 => "Feb" | 3 => "Mar" | 4 => "Apr"
  | 5 => "May" | 6 => "Jun" | 7 => "Jul" | 8 => "Aug"
  | 9 => "Sep" | 10 => "Oct" | 11 => "Nov" | _ => "Dec"

/-- Zero-pad a number to two digits, as `format(date, 'MM')` or `'yy'`. -/
def pad2 (n : Nat) : String :=
  if n < 10 then "0" ++ toString n else toString n

/-- Zero-pad a number to four digits, as `format(date, 'yyyy')`. -/
def pad4 (n : Nat) : String :=
  if n < 10 then "000" ++ toString n
  else if n < 100 then "00" ++ toString n
  else if n < 1000 then "0" ++ toString n
  else toString n

/-- Short human month label `'MMM yy'` (e.g. `"Jan 24"`) of a zero-based month
index. -/
def monthLabelOfIdx (k : Nat) : String :=
  monthAbbrev (k % 12 + 1) ++ " " ++ pad2 (k / 12 % 100)

/-- Bucket key `'yyyy-MM'` (e.g. `"2024-01"`) of a zero-based month index. -/
def monthKeyOfIdx (k : Nat) : String :=
  pad4 (k / 12) ++ "-" ++ pad2 (k % 12 + 1)

/-- Modelled from the spec: the month-index range of the missing
interval-scoped loader's trend buckets (spec section 4.4) — one entry per
calendar month from `floor-to-month(interval.start)` through
`floor-to-month(interval.end)` inclusive; empty for an inverted interval. -/
def trendMonthIdxs (iv : Interval) : List Nat :=
  if monthIdx iv.stop < monthIdx iv.start then []
  else (List.range (monthIdx iv.stop - monthIdx iv.start + 1)).map
    (fun j => monthIdx iv.start + j)

/-- Modelled from the spec: the initialized trend buckets of the missing
interval-scoped loader, all starting at 0. -/
def trendBucketsInit (iv : Interval) : List (Nat × ℚ) :=
  (trendMonthIdxs iv).map (fun k => (k, 0))

/-- Modelled from the spec: the trend bucket labels of the missing
interval-scoped loader, in `'MMM yy'` form. -/
def trendLabelsSpec (iv : Interval) : List String :=
  (trendMonthIdxs iv).map monthLabelOfIdx

/-- Modelled from the spec: the trend bucket keys of the missing
interval-scoped loader, in `'yyyy-MM'` form. -/
def trendKeysSpec (iv : Interval) : List String :=
  (trendMonthIdxs iv).map monthKeyOfIdx

/-- Stable descending insertion by a rational key. The inserted element
originally precedes the (already sorted) tail, so it goes before the first
element whose key is no larger — ties keep the inserted element first, which
is how the stable `sort((a, b) => keyOf(b) - keyOf(a))` orders ties. -/
def insertDesc (keyOf : Contract → ℚ) (x : Contract) :
    List Contract → List Contract
  | [] => [x]
  | y :: ys => if keyOf y ≤ keyOf x then x :: y :: ys else y :: insertDesc keyOf x ys

/-- Stable descending sort by a rational key (insertion sort, matching the
stable JavaScript `Array.prototype.sort`). -/
def stableSortDescBy (keyOf : Contract → ℚ) : List Contract → List Contract
  | [] => []
  | x :: xs => insertDesc keyOf x (stableSortDescBy keyOf xs)

/-- Modelled from the spec: `top5Contracts` of the missing interval-scoped
loader (spec section 4.4) — the interval-overlapping contracts sorted
descending by value (absent value read as 0, stable ties), truncated to the
first 5. -/
def top5Spec (contracts : List Contract) (iv : Interval) : List Contract :=
  (stableSortDescBy valueOf (contracts.filter (fun c => overlapsInterval c iv))).take 5

/-- Modelled from the spec: `monthlyRecurringCost` of the missing
interval-scoped loader (spec section 4.4) — the value sum of currently-active
contracts with monthly terms. -/
def monthlyRecurringCostSpec (contracts : List Contract) (today : CalDate) : ℚ :=
  ((contracts.filter
      (fun c => isCurrentlyActive c today &&
        decide (c.payment_terms = some PaymentTerms.monthly))).map valueOf).sum

/-- Modelled from the spec: `totalActiveContractValue` of the missing
interval-scoped loader (spec section 4.4) — the value sum of all
currently-active contracts. -/
def totalActiveContractValueSpec (contracts : List Contract) (today : CalDate) : ℚ :=
  ((contracts.filter (fun c => isCurrentlyActive c today)).map valueOf).sum

/-- The assembled KPI result of the interval-scoped loader
(spec section 4.5). -/
structure KPIResult where
  monthlyRecurringCost : ℚ
  totalActiveContractValue : ℚ
  totalSpendInRange : ℚ
  spendByVendor : List (String × ℚ)
  spendByType : List (String × ℚ)
  trendLabels : List String
  trendData : List (Nat × ℚ)
  top5Contracts : List Contract
deriving Repr

/-- Modelled from the spec: the KPI Assembler of the missing interval-scoped
loader (spec section 4.5). Live-snapshot KPIs come from the currently-active
set and `today`; range-scoped KPIs come from the analysis interval. -/
def computeKPIs (contracts : List Contract) (iv : Interval) (today : CalDate) :
    KPIResult :=
  { monthlyRecurringCost := monthlyRecurringCostSpec contracts today
    totalActiveContractValue := totalActiveContractValueSpec contracts today
    totalSpendInRange := totalSpendInRange contracts iv
    spendByVendor := spendByVendorSpec contracts iv
    spendByType := spendByTypeSpec contracts iv
    trendLabels := trendLabelsSpec iv
    trendData := trendBucketsInit iv
    top5Contracts := top5Spec contracts iv }

/-!
Concrete inputs used by example conjuncts, counterexamples and witnesses.
-/

/-- A monthly contract of value 100 active from 2024-01-01, open-ended. -/
def monthlyContract100 : Contract :=
  { vendor_name := some "Acme"
    contract_type := some "SaaS"
    start_date := some ⟨2024, 1, 1⟩
    end_date := none
    payment_terms := some PaymentTerms.monthly
    contract_value := some 100 }

/-- The analysis interval [2024-01-01, 2024-03-31], both bounds at local
midnight. -/
def q1Interval : Interval :=
  ⟨(CalDate.atMidnight ⟨2024, 1, 1⟩), (CalDate.atMidnight ⟨2024, 3, 31⟩)⟩

/-- A contract with no `start_date` and no `end_date`: monthly terms,
value 100. -/
def noStartContract : Contract :=
  { vendor_name := none
    contract_type := none
    start_date := none
    end_date := none
    payment_terms := some PaymentTerms.monthly
    contract_value := some 100 }

/-- A concrete `new Date()` instant: 2024-07-01 noon. -/
def nowNoon : DateTime := ⟨2024, 7, 1, 720⟩

/-- A concrete current calendar date: 2024-07-01. -/
def todayDate : CalDate := ⟨2024, 7, 1⟩

/-- A one-time contract of value 500 starting before `q1Interval` but with an
end date overlapping it. -/
def earlyOneTimeContract : Contract :=
  { vendor_name := some "Early"
    contract_type := some "License"
    start_date := some ⟨2023, 11, 15⟩
    end_date := some ⟨2024, 2, 15⟩
    payment_terms := some PaymentTerms.one_time
    contract_value := some 500 }

/-- A yearly contract of value 1200 active from 2024-01-01, open-ended. -/
def yearlyContract1200 : Contract :=
  { vendor_name := some "Yearly Co"
    contract_type := some "Support"
    start_date := some ⟨2024, 1, 1⟩
    end_date := none
    payment_terms := some PaymentTerms.yearly
    contract_value := some 1200 }

/-- Build a named test contract with a given value, active through 2024. -/
def namedContract (name : String) (v : ℚ) : Contract :=
  { vendor_name := some name
    contract_type := some "SaaS"
    start_date := some ⟨2024, 1, 1⟩
    end_date := some ⟨2024, 12, 31⟩
    payment_terms := some PaymentTerms.monthly
    contract_value := some v }

/-- The tie-breaking example collection with values
[500, 500, 300, 100, 50, 10]. -/
def tieContracts : List Contract :=
  [namedContract "a" 500, namedContract "b" 500, namedContract "c" 300,
   namedContract "d" 100, namedContract "e" 50, namedContract "f" 10]

/-- A concrete `new Date()` instant at local midnight: 2024-07-01 00:00. -/
def nowMidnight : DateTime := ⟨2024, 7, 1, 0⟩

/-- The monthly twin of a contract of value `v`: same dates, monthly terms,
one twelfth of the value as the monthly cost. -/
def monthlyTwin (c : Contract) (v : ℚ) : Contract :=
  { c with payment_terms := some PaymentTerms.monthly, contract_value := some (v / 12) }

/-!
Helper lemmas shared by the claim theorems.
-/

theorem mem_insertDesc (keyOf : Contract → ℚ) (x z : Contract) :
    ∀ l : List Contract, z ∈ insertDesc keyOf x l ↔ z = x ∨ z ∈ l := by
  intro l
  induction l with
  | nil => simp [insertDesc]
  | cons y ys ih =>
    by_cases h : keyOf y ≤ keyOf x
    · simp [insertDesc, h]
    · simp only [insertDesc, if_neg h, List.mem_cons, ih]
      tauto

theorem pairwise_insertDesc (keyOf : Contract → ℚ) (x : Contract) :
    ∀ l : List Contract,
      List.Pairwise (fun a b => keyOf b ≤ keyOf a) l →
      List.Pairwise (fun a b => keyOf b ≤ keyOf a) (insertDesc keyOf x l) := by
  intro l
  induction l with
  | nil => intro _; simp [insertDesc]
  | cons y ys ih =>
    intro hp
    rcases List.pairwise_cons.mp hp with ⟨hy, hys⟩
    by_cases h : keyOf y ≤ keyOf x
    · rw [insertDesc, if_pos h]
      refine List.pairwise_cons.mpr ⟨?_, hp⟩
      intro z hz
      rcases List.mem_cons.mp hz with hzy | hzys
      · exact hzy ▸ h
      · exact le_trans (hy z hzys) h
    · rw [insertDesc, if_neg h]
      refine List.pairwise_cons.mpr ⟨?_, ih hys⟩
      intro z hz
      rcases (mem_insertDesc keyOf x z ys).mp hz with hzx | hzys
      · exact hzx ▸ le_of_not_le h
      · exact hy z hzys

theorem pairwise_stableSortDescBy (keyOf : Contract → ℚ) :
    ∀ l : List Contract,
      List.Pairwise (fun a b => keyOf b ≤ keyOf a) (stableSortDescBy keyOf l) := by
  intro l
  induction l with
  | nil => simp [stableSortDescBy]
  | cons x xs ih => exact pairwise_insertDesc keyOf x _ ih

theorem mem_stableSortDescBy (keyOf : Contract → ℚ) (z : Contract) :
    ∀ l : List Contract, z ∈ stableSortDescBy keyOf l ↔ z ∈ l := by
  intro l
  induction l with
  | nil => simp [stableSortDescBy]
  | cons x xs ih =>
    simp only [stableSortDescBy, mem_insertDesc, ih, List.mem_cons]

/-!
Claim theorems.
-/

/-- C1: for a monthly contract with a present start date, the allocated spend
for the analysis interval is the contract value times the inclusive
calendar-month count of the overlap span (`overlap_start = max(start_date,
interval.start)`, `overlap_end = min(effective_end_date, interval.end)`;
count `calendar_month_difference + 1`), rounded to the cent with
round-half-up, and zero when the overlap span is empty (an `overlap_start >=
overlap_end` check, so the span must contain more than its single boundary
instant); in particular a monthly contract of cost 100 covering all of
[2024-01-01, 2024-03-31] allocates exactly 300. -/
theorem monthly_proration_allocated_spend (c : Contract) (iv : Interval)
    (s : CalDate) (hterms : c.payment_terms = some PaymentTerms.monthly)
    (hstart : c.start_date = some s) :
    allocatedSpend c iv =
      (if dtMax s.atMidnight iv.start < dtMin (effectiveEndDate c) iv.stop then
        roundCents (valueOf c *
          ((calMonthDiff (dtMin (effectiveEndDate c) iv.stop)
            (dtMax s.atMidnight iv.start) : ℚ) + 1))
      else 0) ∧
    allocatedSpend monthlyContract100 q1Interval = 300 := by
  constructor
  · simp [allocatedSpend, hstart, hterms]
  · simp +decide only [allocatedSpend, monthlyContract100, q1Interval, CalDate.atMidnight,
      dtMax, dtMin, effectiveEndDate, farFuture, calMonthDiff, monthIdx, roundCents, valueOf]
    norm_num

/-- Witness for C1 at the concrete monthly contract of value 100 over
[2024-01-01, 2024-03-31]. -/
theorem monthly_proration_allocated_spend_witness :
    allocatedSpend monthlyContract100 q1Interval =
      (if dtMax (CalDate.atMidnight ⟨2024, 1, 1⟩) q1Interval.start <
          dtMin (effectiveEndDate monthlyContract100) q1Interval.stop then
        roundCents (valueOf monthlyContract100 *
          ((calMonthDiff (dtMin (effectiveEndDate monthlyContract100) q1Interval.stop)
            (dtMax (CalDate.atMidnight ⟨2024, 1, 1⟩) q1Interval.start) : ℚ) + 1))
      else 0) ∧
    allocatedSpend monthlyContract100 q1Interval = 300 :=
  monthly_proration_allocated_spend monthlyContract100 q1Interval ⟨2024, 1, 1⟩ rfl rfl

/-- C2: a one-time contract allocates its full value exactly when its start
date lies within the closed analysis interval; with the start date outside the
interval it contributes nothing to `totalSpendInRange`, `spendByVendor` or
`spendByType`, whatever its effective end date (no constraint on `end_date`
appears below). -/
theorem one_time_recognition (c : Contract) (iv : Interval) (s : CalDate)
    (hterms : c.payment_terms = some PaymentTerms.one_time)
    (hstart : c.start_date = some s) :
    allocatedSpend c iv =
      (if isWithinInterval s.atMidnight iv then valueOf c else 0) ∧
    (isWithinInterval s.atMidnight iv = false →
      ∀ contracts : List Contract,
        totalSpendInRange (c :: contracts) iv = totalSpendInRange contracts iv ∧
        spendByVendorSpec (c :: contracts) iv = spendByVendorSpec contracts iv ∧
        spendByTypeSpec (c :: contracts) iv = spendByTypeSpec contracts iv) := by
  have halloc : allocatedSpend c iv =
      (if isWithinInterval s.atMidnight iv then valueOf c else 0) := by
    simp [allocatedSpend, hstart, hterms]
  refine ⟨halloc, ?_⟩
  intro hout contracts
  have h0 : allocatedSpend c iv = 0 := by rw [halloc, hout]; simp
  refine ⟨?_, ?_, ?_⟩
  · simp [totalSpendInRange, h0]
  · simp [spendByVendorSpec, h0]
  · simp [spendByTypeSpec, h0]

/-- Witness for C2 at a one-time contract starting 2023-11-15, outside
[2024-01-01, 2024-03-31], with an end date inside the interval. -/
theorem one_time_recognition_witness :
    allocatedSpend earlyOneTimeContract q1Interval =
      (if isWithinInterval (CalDate.atMidnight ⟨2023, 11, 15⟩) q1Interval then
        valueOf earlyOneTimeContract else 0) ∧
    (isWithinInterval (CalDate.atMidnight ⟨2023, 11, 15⟩) q1Interval = false →
      ∀ contracts : List Contract,
        totalSpendInRange (earlyOneTimeContract :: contracts) q1Interval =
          totalSpendInRange contracts q1Interval ∧
        spendByVendorSpec (earlyOneTimeContract :: contracts) q1Interval =
          spendByVendorSpec contracts q1Interval ∧
        spendByTypeSpec (earlyOneTimeContract :: contracts) q1Interval =
          spendByTypeSpec contracts q1Interval) :=
  one_time_recognition earlyOneTimeContract q1Interval ⟨2023, 11, 15⟩ rfl rfl

/-- C3: with the `end` request parameter absent the resolved interval ends at
the current instant (time of day preserved, not floored to a date), and with
the `start` parameter absent it starts at the first calendar day of the
current year at local midnight. -/
theorem interval_resolution_defaults (startParam endParam : Option CalDate)
    (now : DateTime) :
    (resolveInterval startParam none now).stop = now ∧
    (resolveInterval startParam none now).stop.minute = now.minute ∧
    (resolveInterval none endParam now).start = ⟨now.year, 1, 1, 0⟩ := by
  refine ⟨?_, ?_, ?_⟩
  · cases startParam <;> rfl
  · cases startParam <;> rfl
  · cases endParam <;> rfl

/-- C4 counterexample: the repository's currently-active filter accepts a
contract whose `start_date` is absent, while the claimed predicate requires a
present `start_date`; the two disagree at this contract. -/
theorem active_predicate_counterexample :
    isActive nowNoon noStartContract = true ∧
    isCurrentlyActive noStartContract todayDate = false := by
  exact ⟨rfl, rfl⟩

/-- C4 amended: the currently-active filter of the repository's loader holds
iff `end_date` is absent or `end_date`'s local midnight is not before the
current instant; `start_date` is never consulted (so absent or future start
dates still count as active), and no analysis interval enters the
computation. -/
theorem active_predicate_characterization (c : Contract) (now : DateTime) :
    (isActive now c = true ↔
      (∀ e : CalDate, c.end_date = some e → ¬ e.atMidnight < now)) ∧
    (∀ s : Option CalDate, isActive now { c with start_date := s } = isActive now c) := by
  constructor
  · cases he : c.end_date with
    | none => simp [isActive, he]
    | some e => simp [isActive, he]
  · intro s
    cases c
    rfl

/-- C5: evaluation of the repository's loader at a monthly contract whose
`start_date` is absent (value 100, no end date), with `new Date()` falling on
2024-07-01. The contract is counted active and contributes 100 to
`monthlyRecurringCost` and 1200 to `totalAnnualizedSpend`; in the vendor/type
loop its Invalid Date start makes every comparison false, so the overlap start
falls back to `interval.start` and 13 months of spend (1300) accrue to
"Unknown Vendor"/"Uncategorized". Only the trend loop excludes it. The claim
says all these contributions are zero. -/
theorem missing_start_date_contributes_spend :
    monthlyRecurringCost [noStartContract] nowNoon = 100 ∧
    totalAnnualizedSpend [noStartContract] nowNoon = 1200 ∧
    vendorSpend [noStartContract] (srcInterval nowMidnight) =
      [("Unknown Vendor", 1300)] ∧
    typeSpend [noStartContract] (srcInterval nowMidnight) =
      [("Uncategorized", 1300)] ∧
    srcTrend [noStartContract] nowMidnight = srcTrendInit nowMidnight := by
  refine ⟨?_, ?_, ?_, ?_, ?_⟩
  · simp +decide only [monthlyRecurringCost, activeContracts, isActive, noStartContract,
      nowNoon, valueOf, valueTruthy, List.filter, List.foldl, Option.getD]
    norm_num
  · simp +decide only [totalAnnualizedSpend, activeContracts, isActive, noStartContract,
      nowNoon, valueOf, valueTruthy, List.filter, List.foldl, Option.getD]
    norm_num
  · simp +decide only [vendorSpend, srcSpendOf, srcInterval, subMonths, noStartContract,
      nowMidnight, valueTruthy, valueOf, vendorNameOf, strOr, bump, farFuture, calMonthDiff,
      monthIdx, daysInMonth, isLeapYear, CalDate.atMidnight, List.foldl, Option.getD]
    norm_num
  · simp +decide only [typeSpend, srcSpendOf, srcInterval, subMonths, noStartContract,
      nowMidnight, valueTruthy, valueOf, typeNameOf, strOr, bump, farFuture, calMonthDiff,
      monthIdx, daysInMonth, isLeapYear, CalDate.atMidnight, List.foldl, Option.getD]
    norm_num
  · simp +decide only [srcTrend, srcTrendStep, noStartContract, valueTruthy, List.foldl]

/-- C6: the live-snapshot KPIs are independent of the analysis interval — for
any two intervals over the same contract snapshot and the same `today`, the
computed `monthlyRecurringCost` and `totalActiveContractValue` agree, and they
equal the value sums over the currently-active monthly contracts and over all
currently-active contracts respectively. -/
theorem snapshot_independence (contracts : List Contract) (iv1 iv2 : Interval)
    (today : CalDate) :
    (computeKPIs contracts iv1 today).monthlyRecurringCost =
      (computeKPIs contracts iv2 today).monthlyRecurringCost ∧
    (computeKPIs contracts iv1 today).totalActiveContractValue =
      (computeKPIs contracts iv2 today).totalActiveContractValue ∧
    (computeKPIs contracts iv1 today).monthlyRecurringCost =
      ((contracts.filter (fun c => isCurrentlyActive c today &&
        decide (c.payment_terms = some PaymentTerms.monthly))).map valueOf).sum ∧
    (computeKPIs contracts iv1 today).totalActiveContractValue =
      ((contracts.filter (fun c => isCurrentlyActive c today)).map valueOf).sum :=
  ⟨rfl, rfl, rfl, rfl⟩

/-- C7: the trend series holds one zero-initialized bucket per calendar month
from the floor-to-month of `interval.start` through the floor-to-month of
`interval.end` inclusive — so at least one bucket for a sub-month interval —
with `'yyyy-MM'` keys and short `'MMM yy'` labels; for
[2024-01-01, 2024-03-31] exactly the 3 buckets "Jan 24", "Feb 24", "Mar 24". -/
theorem trend_bucket_completeness (iv : Interval)
    (h : monthIdx iv.start ≤ monthIdx iv.stop) :
    (trendBucketsInit iv).length = monthIdx iv.stop - monthIdx iv.start + 1 ∧
    1 ≤ (trendBucketsInit iv).length ∧
    (∀ p ∈ trendBucketsInit iv, p.2 = 0) ∧
    (trendKeysSpec iv).length = (trendBucketsInit iv).length ∧
    trendLabelsSpec q1Interval = ["Jan 24", "Feb 24", "Mar 24"] ∧
    trendKeysSpec q1Interval = ["2024-01", "2024-02", "2024-03"] := by
  have hlen : (trendBucketsInit iv).length = monthIdx iv.stop - monthIdx iv.start + 1 := by
    rw [trendBucketsInit, trendMonthIdxs, if_neg (by omega)]
    simp
  refine ⟨hlen, ?_, ?_, ?_, ?_, ?_⟩
  · rw [hlen]; omega
  · intro p hp
    simp only [trendBucketsInit, List.mem_map] at hp
    obtain ⟨k, _, hk⟩ := hp
    rw [← hk]
  · simp [trendKeysSpec, trendBucketsInit]
  · rfl
  · rfl

/-- C8: the interval-scoped top-5 list has at most 5 entries, is sorted
descending by contract value (absent value read as 0), draws only from the
interval-overlapping contract set, and keeps the original collection order on
ties: for values [500, 500, 300, 100, 50, 10] the result is the first five
with the two 500-valued contracts in their original order. -/
theorem top5_sorted_stable (contracts : List Contract) (iv : Interval) :
    (top5Spec contracts iv).length ≤ 5 ∧
    List.Pairwise (fun a b => valueOf b ≤ valueOf a) (top5Spec contracts iv) ∧
    (∀ c ∈ top5Spec contracts iv,
      c ∈ contracts.filter (fun c => overlapsInterval c iv)) ∧
    (top5Spec tieContracts q1Interval).map vendorNameOf = ["a", "b", "c", "d", "e"] := by
  refine ⟨?_, ?_, ?_, ?_⟩
  · rw [top5Spec, List.length_take]
    omega
  · exact (pairwise_stableSortDescBy valueOf _).sublist (List.take_sublist _ _)
  · intro c hc
    exact (mem_stableSortDescBy valueOf c _).mp (List.take_subset _ _ hc)
  · norm_num [top5Spec, stableSortDescBy, insertDesc, tieContracts, namedContract, valueOf,
      overlapsInterval, effectiveEndDate, q1Interval, CalDate.atMidnight, vendorNameOf, strOr,
      List.filter]
    decide

/-- C9: the loader's error branch does not reproduce the success-case KPI
shape — the success object carries a `spendByVendor` field, the error-branch
default object does not, although the branch's own comment says it matches
the success case. -/
theorem error_shape_mismatch :
    "spendByVendor" ∈ analysisSuccessShapeFields ∧
    "spendByVendor" ∉ analysisErrorShapeFields := by
  exact ⟨by decide, by decide⟩

/-- C10: the repository's loader treats a yearly contract with a present
start date and positive value exactly like a monthly contract over the same
dates with monthly cost `contract_value / 12`: the per-contract vendor/type
allocation and the per-contract trend pass coincide with the monthly twin's,
so the value is spread over overlapped calendar months instead of being
recognized as a lump sum on the start date. -/
theorem yearly_treated_as_recurring (c : Contract) (iv : Interval)
    (buckets : List (Nat × ℚ)) (s : CalDate) (v : ℚ)
    (hterms : c.payment_terms = some PaymentTerms.yearly)
    (hstart : c.start_date = some s)
    (hval : c.contract_value = some v) (hpos : 0 < v) :
    srcSpendOf iv c = srcSpendOf iv (monthlyTwin c v) ∧
    srcTrendStep buckets c = srcTrendStep buckets (monthlyTwin c v) := by
  have hvne : v ≠ 0 := ne_of_gt hpos
  have hv12 : v / 12 ≠ 0 := div_ne_zero hvne (by norm_num)
  constructor
  · simp [srcSpendOf, monthlyTwin, hterms, hstart, hval, valueOf]
  · simp [srcTrendStep, monthlyTwin, hterms, hstart, hval, valueOf, valueTruthy, hvne, hv12]

/-- Witness for C10 at the yearly contract of value 1200 starting
2024-01-01. -/
theorem yearly_treated_as_recurring_witness :
    srcSpendOf q1Interval yearlyContract1200 =
      srcSpendOf q1Interval (monthlyTwin yearlyContract1200 1200) ∧
    srcTrendStep (srcTrendInit nowMidnight) yearlyContract1200 =
      srcTrendStep (srcTrendInit nowMidnight) (monthlyTwin yearlyContract1200 1200) :=
  yearly_treated_as_recurring yearlyContract1200 q1Interval (srcTrendInit nowMidnight)
    ⟨2024, 1, 1⟩ 1200 rfl rfl rfl (by norm_num)

/-- Witness for C7 at the interval [2024-01-01, 2024-03-31]. -/
theorem trend_bucket_completeness_witness :
    (trendBucketsInit q1Interval).length =
      monthIdx q1Interval.stop - monthIdx q1Interval.start + 1 ∧
    1 ≤ (trendBucketsInit q1Interval).length ∧
    (∀ p ∈ trendBucketsInit q1Interval, p.2 = 0) ∧
    (trendKeysSpec q1Interval).length = (trendBucketsInit q1Interval).length ∧
    trendLabelsSpec q1Interval = ["Jan 24", "Feb 24", "Mar 24"] ∧
    trendKeysSpec q1Interval = ["2024-01", "2024-02", "2024-03"] :=
  trend_bucket_completeness q1Interval (by decide)

end ContractCompass
